import Mathlib

/-!
Shallow embedding of the ACWhisk service worker (the offline caching agent
found in the repository alongside `components/ui/motion.tsx`): cache
partitions, request classification, the four strategy handlers, the
install/activate lifecycle, the background-sync sweep and the page↔worker
message protocol.

Responses, requests and cache stores are modelled as plain data; the network
is a parameter `Network` (returning `none` when `fetch` throws); every
handler is a pure state transformer on the partition store.
-/

namespace ACWhisk

/-- A parsed URL, as exposed by the `URL` constructor used in the worker:
`protocol` keeps the trailing colon (e.g. `"https:"`), `hostname` and
`pathname` are as in JS. -/
structure Url where
  protocol : String
  hostname : String
  pathname : String
deriving Repr, DecidableEq

/-- An HTTP response: status, statusText, body and header list, mirroring the
fields the worker constructs and inspects. -/
structure Response where
  status : Nat
  statusText : String
  body : String
  headers : List (String × String)
deriving Repr, DecidableEq

/-- An intercepted request: its URL, HTTP method and `request.destination`. -/
structure Request where
  url : Url
  method : String
  destination : String
deriving Repr, DecidableEq

/-- `pat` is an initial segment of `s` (over character lists, so that the
kernel can evaluate it). -/
def charsHavePre : (pat s : List Char) → Bool
  | [], _ => true
  | _ :: _, [] => false
  | p :: ps, c :: cs => p == c && charsHavePre ps cs

/-- `pat` occurs as a contiguous run of `s`. -/
def charsInclude : (s pat : List Char) → Bool
  | [], pat => charsHavePre pat []
  | c :: rest, pat => charsHavePre pat (c :: rest) || charsInclude rest pat

/-- `pat` is a final segment of `s`. -/
def charsEndWith (s pat : List Char) : Bool :=
  charsHavePre pat.reverse s.reverse

/-- `s.includes pat` of JS strings: `pat` occurs as a substring of `s`. -/
def strIncludes (s pat : String) : Bool :=
  charsInclude s.data pat.data

/-- Lowercasing, character by character. -/
def lowerChars (s : List Char) : List Char :=
  s.map Char.toLower

/-- Case-insensitive header lookup, as `Headers.get` performs in JS;
returns the first matching header value. -/
def headerGet (hs : List (String × String)) (name : String) : Option String :=
  (hs.find? (fun h => lowerChars h.1.data == lowerChars name.data)).map (·.2)

/-! ## Cache partitions (the Cache Storage API as used by the worker) -/

/-- One cache partition: request→response entries, keyed by full request URL
(the worker only ever stores GET requests). -/
abbrev Cache := List (Url × Response)

/-- The cache store: named partitions, in creation order. -/
abbrev CacheStore := List (String × Cache)

/-- `cache.match request`: the first entry whose URL equals the request URL. -/
def cacheMatch (c : Cache) (u : Url) : Option Response :=
  (c.find? (fun e => e.1 == u)).map (·.2)

/-- `cache.put request response`: store under the URL key, overwriting any
previous entry for the same URL. -/
def cachePut (c : Cache) (u : Url) (r : Response) : Cache :=
  c.filter (fun e => e.1 != u) ++ [(u, r)]

/-- `caches.open name`: create the named partition (empty) if absent. -/
def openCache (name : String) (s : CacheStore) : CacheStore :=
  if s.any (fun e => e.1 == name) then s else s ++ [(name, [])]

/-- The contents of a named partition (empty when absent). -/
def getCache (name : String) (s : CacheStore) : Cache :=
  ((s.find? (fun e => e.1 == name)).map (·.2)).getD []

/-- Replace the contents of a named partition. -/
def setCache (name : String) (c : Cache) (s : CacheStore) : CacheStore :=
  s.map (fun e => if e.1 == name then (e.1, c) else e)

/-- `caches.open name` then `cache.put`: store an entry in the named
partition, creating the partition if needed. -/
def storePut (name : String) (u : Url) (r : Response) (s : CacheStore) : CacheStore :=
  let s := openCache name s
  setCache name (cachePut (getCache name s) u r) s

/-- `caches.match request`: search every partition in order for the URL. -/
def cachesMatch (s : CacheStore) (u : Url) : Option Response :=
  s.findSome? (fun e => cacheMatch e.2 u)

/-- `caches.delete name`: remove the named partition entirely. -/
def cachesDelete (name : String) (s : CacheStore) : CacheStore :=
  s.filter (fun e => e.1 != name)

/-- `caches.keys`: the partition names. -/
def cachesKeys (s : CacheStore) : List String :=
  s.map (·.1)

/-! ## Worker configuration constants -/

def CACHE_NAME : String := "acwhisk-v1.0.3"

def IMAGE_CACHE_NAME : String := "acwhisk-images-v1.0.3"

def STATIC_CACHE : String := "acwhisk-static-v1.0.3"

def DYNAMIC_CACHE : String := "acwhisk-dynamic-v1.0.3"

/-- Assets to cache immediately (the fixed static-asset manifest). -/
def STATIC_ASSETS : List String :=
  ["/", "/App.tsx", "/styles/globals.css", "/components/ui/button.tsx",
   "/components/ui/card.tsx", "/components/ui/avatar.tsx",
   "/components/figma/ImageWithFallback.tsx"]

/-- API endpoints to cache: the patterns `/\/api\/recipes/` etc. are
unanchored regexes over the pathname, i.e. substring tests. -/
def API_CACHE_PATTERNS : List String :=
  ["/api/recipes", "/api/posts", "/api/users", "/api/auth"]

/-- Relative asset URLs from the manifest are resolved against the worker
origin; the origin host is written `self` here. -/
def resolveAsset (p : String) : Url :=
  ⟨"https:", "self", p⟩

/-- The static-asset manifest resolved to URL keys. -/
def staticAssetUrls : List Url :=
  STATIC_ASSETS.map resolveAsset

/-! ## Request classification -/

/-- The image-extension regex
`/\.(jpg|jpeg|png|gif|webp|svg)(\?.*)?$/i` over the pathname: the pathname,
lowercased, either ends with a dotted image extension or contains the dotted
extension followed by `?` (the trailing `.*` then consumes the rest). -/
def imageExtTest (p : String) : Bool :=
  let lower := lowerChars p.data
  ["jpg", "jpeg", "png", "gif", "webp", "svg"].any fun ext =>
    charsEndWith lower ("." ++ ext).data ||
    charsInclude lower ("." ++ ext ++ "?").data

/-- `isImageRequest url`: image-extension pathname, or an upload route, or a
Supabase storage host. -/
def isImageRequest (url : Url) : Bool :=
  imageExtTest url.pathname ||
  strIncludes url.pathname "/upload/" ||
  strIncludes url.hostname "supabase.co"

/-- `isAPIRequest request`: the pathname matches one of the (unanchored) API
route patterns. -/
def isAPIRequest (req : Request) : Bool :=
  API_CACHE_PATTERNS.any fun pat => strIncludes req.url.pathname pat

/-! ## The network -/

/-- The network as seen by `fetch`: a request plus explicit fetch-option
headers (empty for a plain `fetch(request)`), returning `none` when the
fetch throws (network failure). -/
abbrev Network := Request → List (String × String) → Option Response

/-- A GET request fabricated from a bare URL, as `cache.add(url)` and
`fetch(url)` do. -/
def getRequestOf (u : Url) : Request :=
  ⟨u, "GET", ""⟩

/-! ## Synthesized fallback responses

The template-literal bodies are transcribed from the worker; `\x7b`/`\x7d`
denote the literal braces of the CSS and JSON text and `\x27` a literal
apostrophe. The offline HTML is written as a concatenation split at the
word `Offline` of the page title. -/

def offlineHtmlPre : String :=
  "<!DOCTYPE html>\n        <html>\n          <head>\n            <title>ACWhisk - "

def offlineHtmlRest : String :=
  "</title>\n            <meta charset=\"utf-8\">\n            <meta name=\"viewport\" content=\"width=device-width, initial-scale=1\">\n            <style>\n              body \x7b\n                font-family: -apple-system, BlinkMacSystemFont, \x27Segoe UI\x27, sans-serif;\n                background: linear-gradient(135deg, #E0EAFC 0%, #CFDEF3 100%);\n                margin: 0;\n                padding: 2rem;\n                min-height: 100vh;\n                display: flex;\n                align-items: center;\n                justify-content: center;\n              \x7d\n              .container \x7b\n                background: rgba(255, 255, 255, 0.4);\n                backdrop-filter: blur(16px);\n                border-radius: 1.5rem;\n                padding: 3rem;\n                text-align: center;\n                max-width: 400px;\n                border: 1px solid rgba(255, 255, 255, 0.18);\n                box-shadow: 0 8px 32px rgba(31, 38, 135, 0.15);\n              \x7d\n              h1 \x7b color: #2D3748; margin-bottom: 1rem; \x7d\n              p \x7b color: #4A5568; margin-bottom: 2rem; \x7d\n              .offline-icon \x7b font-size: 4rem; margin-bottom: 1rem; \x7d\n              .btn \x7b\n                background: linear-gradient(135deg, #A18CFF 0%, #4FACFE 100%);\n                color: white;\n                border: none;\n                padding: 0.75rem 1.5rem;\n                border-radius: 2rem;\n                cursor: pointer;\n                font-weight: 500;\n              \x7d\n            </style>\n          </head>\n          <body>\n            <div class=\"container\">\n              <div class=\"offline-icon\">üç≥</div>\n              <h1>ACWhisk - Offline</h1>\n              <p>You\x27re currently offline. Please check your internet connection and try again.</p>\n              <button onclick=\"window.location.reload()\" class=\"btn\">\n                Try Again\n              </button>\n            </div>\n          </body>\n        </html>"

/-- The generic offline page body. -/
def offlineHtml : String :=
  offlineHtmlPre ++ "Offline" ++ offlineHtmlRest

/-- The generic offline page returned by the document handler when network
and cache both fail: status 200, `Content-Type: text/html`. -/
def offlinePageResponse : Response :=
  ⟨200, "", offlineHtml, [("Content-Type", "text/html")]⟩

/-- The inline placeholder vector graphic returned by the image handler on
total failure. -/
def placeholderSvg : String :=
  "<svg width=\"400\" height=\"300\" xmlns=\"http://www.w3.org/2000/svg\">\n        <defs>\n          <linearGradient id=\"grad\" x1=\"0%\" y1=\"0%\" x2=\"100%\" y2=\"100%\">\n            <stop offset=\"0%\" style=\"stop-color:#e2e8f0;stop-opacity:1\" />\n            <stop offset=\"100%\" style=\"stop-color:#cbd5e1;stop-opacity:1\" />\n          </linearGradient>\n        </defs>\n        <rect width=\"400\" height=\"300\" fill=\"url(#grad)\"/>\n        <g transform=\"translate(200,150)\">\n          <circle r=\"30\" fill=\"#94a3b8\" opacity=\"0.5\"/>\n          <text y=\"5\" text-anchor=\"middle\" fill=\"#64748b\" font-family=\"Arial\" font-size=\"12\">\n            Image unavailable\n          </text>\n        </g>\n      </svg>"

/-- The placeholder image response: `new Response(svg, \x7bheaders\x7d)` takes
the default status 200 and the given headers. -/
def placeholderSvgResponse : Response :=
  ⟨200, "", placeholderSvg,
   [("Content-Type", "image/svg+xml"), ("Cache-Control", "no-cache")]⟩

/-- The `JSON.stringify` output of the API offline body, split at its
`"offline":true` field. -/
def apiOfflineBodyPre : String :=
  "\x7b\"error\":\"Network unavailable\",\"message\":\"This request failed because you are offline. Please try again when you have an internet connection.\","

/-- The serialized `offline` field of the API offline body. -/
def offlineTrueField : String :=
  "\"offline\":true"

/-- The structured JSON error body of the API handler's offline response. -/
def apiOfflineBody : String :=
  apiOfflineBodyPre ++ offlineTrueField ++ "\x7d"

/-- The offline response for failed API requests: status 503, JSON body. -/
def apiOfflineResponse : Response :=
  ⟨503, "", apiOfflineBody, [("Content-Type", "application/json")]⟩

/-! ## Strategy handlers -/

/-- `handlePageRequest`: network first; a 200 network response is cloned
into the dynamic partition; on a thrown fetch, fall back to `caches.match`
and then to the generic offline page. -/
def handlePageRequest (net : Network) (req : Request) (store : CacheStore) :
    Response × CacheStore :=
  match net req [] with
  | some networkResponse =>
    if networkResponse.status = 200 then
      (networkResponse, storePut DYNAMIC_CACHE req.url networkResponse store)
    else
      (networkResponse, store)
  | none =>
    match cachesMatch store req.url with
    | some cachedResponse => (cachedResponse, store)
    | none => (offlinePageResponse, store)

/-- The fetch-option headers the image handler sends with its network
request. -/
def imageFetchHeaders : List (String × String) :=
  [("Cache-Control", "public, max-age=86400"),
   ("Accept", "image/webp,image/avif,image/*,*/*;q=0.8")]

/-- Object-spreading a JS `Headers` instance (`\x7b...response.headers\x7d`)
contributes no entries: a `Headers` object has no enumerable own
properties, so the spread is empty. -/
def spreadHeadersObject (_ : List (String × String)) : List (String × String) :=
  []

/-- The header object the image handler builds for its re-wrapped response:
the (empty) spread of the original headers followed by the three literal
keys. -/
def mkOptimizedHeaders (orig : List (String × String)) : List (String × String) :=
  spreadHeadersObject orig ++
    [("Cache-Control", "public, max-age=604800"),
     ("Service-Worker-Cached", "true"),
     ("X-Optimized", "true")]

/-- `handleOptimizedImageRequest`: image-partition cache first; on miss,
fetch with optimization headers; a 200 response is re-wrapped with
`mkOptimizedHeaders`, stored in the image partition and returned; on a
thrown fetch, fall back to the image partition and then to the placeholder
graphic. -/
def handleOptimizedImageRequest (net : Network) (req : Request)
    (store : CacheStore) : Response × CacheStore :=
  let store := openCache IMAGE_CACHE_NAME store
  match cacheMatch (getCache IMAGE_CACHE_NAME store) req.url with
  | some cachedResponse => (cachedResponse, store)
  | none =>
    match net req imageFetchHeaders with
    | some response =>
      if response.status = 200 then
        let optimizedResponse : Response :=
          ⟨response.status, response.statusText, response.body,
           mkOptimizedHeaders response.headers⟩
        (optimizedResponse,
         storePut IMAGE_CACHE_NAME req.url optimizedResponse store)
      else
        (response, store)
    | none =>
      match cacheMatch (getCache IMAGE_CACHE_NAME store) req.url with
      | some cachedResponse => (cachedResponse, store)
      | none => (placeholderSvgResponse, store)

/-- `handleAPIRequest`: network first; a 200 response to a GET is cloned
into the dynamic partition; on a thrown fetch, GETs fall back to
`caches.match`; otherwise return the structured offline JSON error. -/
def handleAPIRequest (net : Network) (req : Request) (store : CacheStore) :
    Response × CacheStore :=
  match net req [] with
  | some networkResponse =>
    if networkResponse.status = 200 ∧ req.method = "GET" then
      (networkResponse, storePut DYNAMIC_CACHE req.url networkResponse store)
    else
      (networkResponse, store)
  | none =>
    if req.method = "GET" then
      match cachesMatch store req.url with
      | some cachedResponse => (cachedResponse, store)
      | none => (apiOfflineResponse, store)
    else
      (apiOfflineResponse, store)

/-- `handleAssetRequest`: cache first over all partitions; on miss, fetch,
clone 200 responses into the dynamic partition, and rethrow network errors
(`none` = the handler's promise rejects). -/
def handleAssetRequest (net : Network) (req : Request) (store : CacheStore) :
    Option Response × CacheStore :=
  match cachesMatch store req.url with
  | some cachedResponse => (some cachedResponse, store)
  | none =>
    match net req [] with
    | some networkResponse =>
      if networkResponse.status = 200 then
        (some networkResponse, storePut DYNAMIC_CACHE req.url networkResponse store)
      else
        (some networkResponse, store)
    | none => (none, store)

/-! ## The fetch event listener -/

/-- Outcome of the fetch listener for one intercepted request:
`passthrough` when the listener returns without `respondWith` (the request
proceeds unintercepted), `respond r` when a strategy handler produced `r`,
`failed` when the chosen handler's promise rejected. -/
inductive FetchOutcome where
  | passthrough
  | respond (r : Response)
  | failed
deriving Repr, DecidableEq

/-- The fetch event listener: skip non-GET methods, the
`chrome-extension:` scheme and Supabase auth routes; otherwise dispatch to
exactly one strategy handler (document, then image, then API, then asset). -/
def handleFetch (net : Network) (req : Request) (store : CacheStore) :
    FetchOutcome × CacheStore :=
  let url := req.url
  if req.method ≠ "GET" then
    (.passthrough, store)
  else if url.protocol = "chrome-extension:" then
    (.passthrough, store)
  else if strIncludes url.hostname "supabase.co" ∧ strIncludes url.pathname "/auth/" then
    (.passthrough, store)
  else if req.destination = "document" then
    let (r, s) := handlePageRequest net req store
    (.respond r, s)
  else if req.destination = "image" ∨ isImageRequest url then
    let (r, s) := handleOptimizedImageRequest net req store
    (.respond r, s)
  else if isAPIRequest req then
    let (r, s) := handleAPIRequest net req store
    (.respond r, s)
  else
    match handleAssetRequest net req store with
    | (some r, s) => (.respond r, s)
    | (none, s) => (.failed, s)

/-! ## Lifecycle: install and activate -/

/-- `cache.addAll urls`: fetch every URL and store the responses as a batch;
the whole operation fails (and writes nothing) if any fetch throws or
returns a response outside the 2xx range. -/
def cacheAddAll (net : Network) (urls : List Url) (c : Cache) : Option Cache :=
  urls.foldl
    (fun acc u =>
      acc.bind fun cache =>
        match net (getRequestOf u) [] with
        | some r => if 200 ≤ r.status ∧ r.status < 300 then some (cachePut cache u r) else none
        | none => none)
    (some c)

/-- The install event listener: open the static partition and pre-populate
it with the manifest, open the image partition, then call `skipWaiting`.
The returned flag records whether `skipWaiting` ran (the trailing `catch`
swallows an `addAll` failure before `skipWaiting` is reached). -/
def install (net : Network) (store : CacheStore) : CacheStore × Bool :=
  let store := openCache STATIC_CACHE store
  let store := openCache IMAGE_CACHE_NAME store
  match cacheAddAll net staticAssetUrls (getCache STATIC_CACHE store) with
  | some c => (setCache STATIC_CACHE c store, true)
  | none => (store, false)

/-- The activate event listener: delete every partition whose name is not
one of the three current names, then call `clients.claim`. The returned
flag records that `clients.claim` ran. -/
def activate (store : CacheStore) : CacheStore × Bool :=
  (store.filter (fun e =>
     decide (e.1 = STATIC_CACHE ∨ e.1 = DYNAMIC_CACHE ∨ e.1 = IMAGE_CACHE_NAME)),
   true)

/-! ## Background sync -/

/-- 7 days in milliseconds. -/
def oneWeekMs : Int := 7 * 24 * 60 * 60 * 1000

/-- Whether the sweep deletes an entry: JS tests
`dateHeader && new Date(dateHeader).getTime() < oneWeekAgo`, so the header
must be present, truthy (non-empty) and parse to a time before the cutoff;
`parseDate` stands for `new Date(·).getTime()`. -/
def sweepDeletes (parseDate : String → Int) (oneWeekAgo : Int) (r : Response) : Bool :=
  match headerGet r.headers "date" with
  | some d => d ≠ "" ∧ parseDate d < oneWeekAgo
  | none => false

/-- The image-partition sweep: delete every entry whose `date` header is
older than the cutoff. -/
def sweepImageCache (parseDate : String → Int) (oneWeekAgo : Int) (c : Cache) : Cache :=
  c.filter (fun e => ! sweepDeletes parseDate oneWeekAgo e.2)

/-- A message posted to a page context. -/
structure ClientMessage where
  type : String
  timestamp : Int
deriving Repr, DecidableEq

/-- `doBackgroundSync`: open the image partition, delete entries older than
7 days (judged by the `date` header), then post `SYNC_COMPLETE` with the
current time to every client. `now` is `Date.now()`, `clients` the ids of
the open page contexts. -/
def doBackgroundSync (parseDate : String → Int) (now : Int) (clients : List Nat)
    (store : CacheStore) : CacheStore × List (Nat × ClientMessage) :=
  let store := openCache IMAGE_CACHE_NAME store
  let oneWeekAgo := now - oneWeekMs
  let swept := sweepImageCache parseDate oneWeekAgo (getCache IMAGE_CACHE_NAME store)
  (setCache IMAGE_CACHE_NAME swept store,
   clients.map (fun c => (c, ⟨"SYNC_COMPLETE", now⟩)))

/-! ## The message event listener -/

/-- Messages the page can post to the worker (`event.data.type` with its
payload, already destructured). -/
inductive WorkerMessage where
  | skipWaitingMsg
  | cacheRecipe (url : Option Url)
  | preloadImages (urls : List Url)
  | clearCache
  | getCacheSize
  | unknown (t : String)
deriving Repr, DecidableEq

/-- A reply posted on `event.ports[0]`. -/
inductive PortReply where
  | success (ok : Bool)
  | cacheSize (dynamicCacheSize imageCacheSize totalSize : Nat)
deriving Repr, DecidableEq

/-- The message event listener. Returns the new store, the replies posted
on the provided port (in order) and whether `skipWaiting` was called. -/
def handleMessage (net : Network) (msg : WorkerMessage) (store : CacheStore) :
    CacheStore × List PortReply × Bool :=
  match msg with
  | .skipWaitingMsg => (store, [], true)
  | .cacheRecipe url =>
    match url with
    | some u =>
      -- cache.add: fetch the URL and store it; a non-ok response rejects
      -- and nothing is written.
      (match net (getRequestOf u) [] with
       | some r =>
         if 200 ≤ r.status ∧ r.status < 300 then
           (storePut DYNAMIC_CACHE u r store, [], false)
         else
           (openCache DYNAMIC_CACHE store, [], false)
       | none => (openCache DYNAMIC_CACHE store, [], false))
    | none => (store, [], false)
  | .preloadImages urls =>
    -- each URL fetched and stored independently; only 200 responses are
    -- written; per-URL failures do not abort the batch.
    let store := openCache IMAGE_CACHE_NAME store
    (urls.foldl
       (fun s u =>
         match net (getRequestOf u) [] with
         | some r => if r.status = 200 then storePut IMAGE_CACHE_NAME u r s else s
         | none => s)
       store,
     [], false)
  | .clearCache =>
    (cachesDelete IMAGE_CACHE_NAME (cachesDelete DYNAMIC_CACHE store),
     [.success true], false)
  | .getCacheSize =>
    let store := openCache IMAGE_CACHE_NAME (openCache DYNAMIC_CACHE store)
    let dynamicKeys := (getCache DYNAMIC_CACHE store).length
    let imageKeys := (getCache IMAGE_CACHE_NAME store).length
    (store, [.cacheSize dynamicKeys imageKeys (dynamicKeys + imageKeys)], false)
  | .unknown _ => (store, [], false)

/-! ## Concrete instances used to exercise the model -/

/-- A network image response that carries `Content-Type` and `Date`
headers. -/
def imgNetResp : Response :=
  ⟨200, "OK", "imgbytes",
   [("Content-Type", "image/png"), ("Date", "Tue, 01 Oct 2024 00:00:00 GMT")]⟩

/-- A network that always answers with `imgNetResp`. -/
def imgNet : Network := fun _ _ => some imgNetResp

/-- A concrete image request. -/
def imgReq : Request := ⟨⟨"https:", "img.example.com", "/pic.png"⟩, "GET", "image"⟩

/-! ## Helper lemmas about the cache-store operations -/

theorem getCache_openCache_self (n : String) (s : CacheStore) :
    getCache n (openCache n s) = getCache n s := by
  unfold openCache getCache
  split
  · rfl
  · rename_i h
    have hn : s.find? (fun e => e.1 == n) = none := by
      rw [List.find?_eq_none]
      intro x hx hpx
      exact h (List.any_eq_true.mpr ⟨x, hx, hpx⟩)
    rw [List.find?_append, hn]
    simp

theorem getCache_openCache_ne (m n : String) (s : CacheStore) (h : m ≠ n) :
    getCache n (openCache m s) = getCache n s := by
  unfold openCache getCache
  split
  · rfl
  · rw [List.find?_append]
    have : List.find? (fun e => e.1 == n) [(m, ([] : Cache))] = none := by
      simp [h]
    rw [this]
    simp

theorem find?_openCache_isSome (n : String) (s : CacheStore) :
    ((openCache n s).find? (fun e => e.1 == n)).isSome := by
  unfold openCache
  split
  · rename_i h
    exact List.find?_isSome.mpr (List.any_eq_true.mp h)
  · rw [List.find?_append]
    rcases hfind : s.find? (fun e => e.1 == n) with _ | e <;> simp

theorem getCache_setCache_found (n : String) (c : Cache) (s : CacheStore)
    (h : (s.find? (fun e => e.1 == n)).isSome) :
    getCache n (setCache n c s) = c := by
  induction s with
  | nil => simp [List.find?] at h
  | cons a t ih =>
    by_cases ha : a.1 = n
    · simp [setCache, getCache, List.find?_cons, ha]
    · have ha' : (a.1 == n) = false := by simp [ha]
      rw [List.find?_cons, ha'] at h
      have hstep : setCache n c (a :: t) = a :: setCache n c t := by
        simp [setCache, ha]
      rw [hstep]
      have hskip : getCache n (a :: setCache n c t) = getCache n (setCache n c t) := by
        unfold getCache
        rw [List.find?_cons, ha']
      rw [hskip]
      exact ih (by simpa using h)

theorem cachesKeys_setCache (n : String) (c : Cache) (s : CacheStore) :
    cachesKeys (setCache n c s) = cachesKeys s := by
  unfold cachesKeys setCache
  rw [List.map_map]
  apply List.map_congr_left
  intro a _
  by_cases ha : a.1 = n <;> simp [ha]

theorem mem_keys_openCache (n : String) (s : CacheStore) :
    n ∈ cachesKeys (openCache n s) := by
  unfold openCache cachesKeys
  split
  · rename_i h
    obtain ⟨x, hx, hpx⟩ := List.any_eq_true.mp h
    exact List.mem_map.mpr ⟨x, hx, by simpa using hpx⟩
  · simp

theorem mem_openCache (n : String) (s : CacheStore) (e : String × Cache)
    (h : e ∈ openCache n s) : e ∈ s ∨ e = (n, []) := by
  unfold openCache at h
  split at h
  · exact Or.inl h
  · rcases List.mem_append.mp h with h' | h'
    · exact Or.inl h'
    · exact Or.inr (by simpa using h')

theorem getCache_absent (n : String) (s : CacheStore) (h : ∀ e ∈ s, e.1 ≠ n) :
    getCache n s = [] := by
  unfold getCache
  have : s.find? (fun e => e.1 == n) = none := by
    rw [List.find?_eq_none]
    intro x hx
    simpa using h x hx
  rw [this]
  rfl

theorem cacheMatch_cachePut_self (c : Cache) (u : Url) (r : Response) :
    cacheMatch (cachePut c u r) u = some r := by
  unfold cacheMatch cachePut
  have hnone : (c.filter (fun e => e.1 != u)).find? (fun e => e.1 == u) = none := by
    rw [List.find?_eq_none]
    intro x hx
    have := (List.mem_filter.mp hx).2
    simp at this
    simp [this]
  rw [List.find?_append, hnone]
  simp

theorem getCache_storePut_self (n : String) (u : Url) (r : Response) (s : CacheStore) :
    getCache n (storePut n u r s) = cachePut (getCache n s) u r := by
  unfold storePut
  rw [getCache_setCache_found n _ _ (find?_openCache_isSome n s),
      getCache_openCache_self]

theorem find?_filter_of_imp {α : Type _} (p q : α → Bool) (l : List α)
    (h : ∀ a, q a = true → p a = true) :
    (l.filter p).find? q = l.find? q := by
  induction l with
  | nil => rfl
  | cons a t ih =>
    by_cases hq : q a = true
    · have hp := h a hq
      simp [List.filter_cons, hp, List.find?_cons, hq]
    · have hq' : q a = false := by simpa using hq
      by_cases hp : p a = true
      · simp [List.filter_cons, hp, List.find?_cons, hq', ih]
      · have hp' : p a = false := by simpa using hp
        simp [List.filter_cons, hp', List.find?_cons, hq', ih]

theorem getCache_cachesDelete_ne (m n : String) (s : CacheStore) (h : n ≠ m) :
    getCache n (cachesDelete m s) = getCache n s := by
  unfold getCache cachesDelete
  rw [find?_filter_of_imp]
  intro a ha
  have : a.1 = n := by simpa using ha
  simp [this, h]

theorem not_mem_keys_cachesDelete (m : String) (s : CacheStore) :
    m ∉ cachesKeys (cachesDelete m s) := by
  unfold cachesKeys cachesDelete
  intro h
  obtain ⟨e, he, hkey⟩ := List.mem_map.mp h
  have := (List.mem_filter.mp he).2
  simp [hkey] at this

theorem mem_cachesDelete (m : String) (s : CacheStore) (e : String × Cache)
    (h : e ∈ cachesDelete m s) : e ∈ s ∧ e.1 ≠ m := by
  have := List.mem_filter.mp h
  exact ⟨this.1, by simpa using this.2⟩

theorem cacheMatch_filter_keep (keep : Url × Response → Bool) (c : Cache)
    (u : Url) (r : Response) (h : cacheMatch c u = some r)
    (hk : keep (u, r) = true) :
    cacheMatch (c.filter keep) u = some r := by
  induction c with
  | nil => simp [cacheMatch] at h
  | cons a t ih =>
    by_cases hau : a.1 = u
    · have har : a.2 = r := by
        simpa [cacheMatch, List.find?_cons, hau] using h
      have hae : a = (u, r) := by
        cases a
        simp_all
      subst hae
      simp [List.filter_cons, hk, cacheMatch, List.find?_cons]
    · have hau' : (a.1 == u) = false := by simp [hau]
      have ht : cacheMatch t u = some r := by
        simpa [cacheMatch, List.find?_cons, hau'] using h
      by_cases hka : keep a = true
      · simpa [List.filter_cons, hka, cacheMatch, List.find?_cons, hau'] using ih ht
      · have hka' : keep a = false := by simpa using hka
        simpa [List.filter_cons, hka'] using ih ht

theorem keys_cachePut_of_not_mem (c : Cache) (u : Url) (r : Response)
    (h : u ∉ c.map (·.1)) :
    (cachePut c u r).map (·.1) = c.map (·.1) ++ [u] := by
  unfold cachePut
  have : c.filter (fun e => e.1 != u) = c := by
    rw [List.filter_eq_self]
    intro a ha
    have : a.1 ≠ u := fun hex => h (List.mem_map.mpr ⟨a, ha, hex⟩)
    simpa using this
  rw [List.map_append, this]
  rfl

theorem keys_cachePut_mem (c : Cache) (u v : Url) (r : Response)
    (h : v ∈ (cachePut c u r).map (·.1)) :
    v ∈ c.map (·.1) ∨ v = u := by
  unfold cachePut at h
  rw [List.map_append] at h
  rcases List.mem_append.mp h with h' | h'
  · exact Or.inl (((List.filter_sublist c).map (·.1)).subset h')
  · exact Or.inr (by simpa using h')

theorem find?_openCache_isSome_mono (m n : String) (s : CacheStore)
    (h : (s.find? (fun e => e.1 == n)).isSome) :
    ((openCache m s).find? (fun e => e.1 == n)).isSome := by
  unfold openCache
  split
  · exact h
  · rw [List.find?_append]
    rcases hx : s.find? (fun e => e.1 == n) with _ | v
    · rw [hx] at h
      simp at h
    · simp [hx]

theorem mem_keys_cachesDelete (m n : String) (s : CacheStore)
    (h : n ∈ cachesKeys (cachesDelete m s)) : n ∈ cachesKeys s ∧ n ≠ m := by
  obtain ⟨e, he, hkey⟩ := List.mem_map.mp h
  obtain ⟨hes, hneq⟩ := mem_cachesDelete m s e he
  exact ⟨List.mem_map.mpr ⟨e, hes, hkey⟩, hkey ▸ hneq⟩

theorem getCache_doBackgroundSync (parseDate : String → Int) (now : Int)
    (clients : List Nat) (store : CacheStore) :
    getCache IMAGE_CACHE_NAME (doBackgroundSync parseDate now clients store).1
      = sweepImageCache parseDate (now - oneWeekMs) (getCache IMAGE_CACHE_NAME store) := by
  unfold doBackgroundSync
  rw [getCache_setCache_found _ _ _ (find?_openCache_isSome _ _),
      getCache_openCache_self]

/-! ## The claims -/

/-- Claim C1: for every API request (URL path matching one of the configured
API route patterns), if the network fetch throws and no cached entry exists
for the request, the API handler returns a response with status 503 whose
JSON body carries the field `"offline":true`. -/
theorem c1_api_offline_response (net : Network) (req : Request) (store : CacheStore)
    (_hapi : isAPIRequest req = true)
    (hnet : net req [] = none)
    (hmiss : cachesMatch store req.url = none) :
    (handleAPIRequest net req store).1.status = 503 ∧
    ∃ a b, (handleAPIRequest net req store).1.body = a ++ "\"offline\":true" ++ b := by
  simp only [handleAPIRequest, hnet]
  by_cases hm : req.method = "GET"
  · simp only [hm, if_true, hmiss]
    exact ⟨rfl, apiOfflineBodyPre, "\x7d", rfl⟩
  · simp only [if_neg hm]
    exact ⟨rfl, apiOfflineBodyPre, "\x7d", rfl⟩

/-- Witness for C1 at a concrete offline `/api/recipes` request. -/
theorem c1_api_offline_response_witness :
    (handleAPIRequest (fun _ _ => none)
        ⟨⟨"https:", "example.com", "/api/recipes"⟩, "GET", ""⟩ []).1.status = 503 ∧
    ∃ a b, (handleAPIRequest (fun _ _ => none)
        ⟨⟨"https:", "example.com", "/api/recipes"⟩, "GET", ""⟩ []).1.body
      = a ++ "\"offline\":true" ++ b :=
  c1_api_offline_response _ _ _ (by decide) rfl rfl

/-- Claim C2: for every document request, if the network fetch throws and no
cached entry exists in any partition, the document handler returns a
synthesized HTML response with status 200 whose body contains the literal
string `Offline`. -/
theorem c2_document_offline_page (net : Network) (req : Request) (store : CacheStore)
    (_hdoc : req.destination = "document")
    (hnet : net req [] = none)
    (hmiss : cachesMatch store req.url = none) :
    (handlePageRequest net req store).1.status = 200 ∧
    ∃ a b, (handlePageRequest net req store).1.body = a ++ "Offline" ++ b := by
  simp only [handlePageRequest, hnet, hmiss]
  exact ⟨rfl, offlineHtmlPre, offlineHtmlRest, rfl⟩

/-- Witness for C2 at a concrete offline navigation request. -/
theorem c2_document_offline_page_witness :
    (handlePageRequest (fun _ _ => none)
        ⟨⟨"https:", "example.com", "/"⟩, "GET", "document"⟩ []).1.status = 200 ∧
    ∃ a b, (handlePageRequest (fun _ _ => none)
        ⟨⟨"https:", "example.com", "/"⟩, "GET", "document"⟩ []).1.body
      = a ++ "Offline" ++ b :=
  c2_document_offline_page _ _ _ rfl rfl rfl

/-- Claim C3: for every image request, if the network fetch throws and no
cached entry exists in the image partition, the image handler returns the
placeholder response: content type `image/svg+xml`, status 200, and a
non-cacheable `Cache-Control: no-cache` header. -/
theorem c3_image_placeholder (net : Network) (req : Request) (store : CacheStore)
    (_himg : req.destination = "image" ∨ isImageRequest req.url = true)
    (hnet : net req imageFetchHeaders = none)
    (hmiss : cacheMatch (getCache IMAGE_CACHE_NAME store) req.url = none) :
    (handleOptimizedImageRequest net req store).1 = placeholderSvgResponse ∧
    placeholderSvgResponse.status = 200 ∧
    headerGet placeholderSvgResponse.headers "content-type" = some "image/svg+xml" ∧
    headerGet placeholderSvgResponse.headers "cache-control" = some "no-cache" := by
  have hmiss' :
      cacheMatch (getCache IMAGE_CACHE_NAME (openCache IMAGE_CACHE_NAME store)) req.url
        = none := by
    rw [getCache_openCache_self]
    exact hmiss
  constructor
  · simp only [handleOptimizedImageRequest, hmiss', hnet]
  · exact ⟨rfl, by decide, by decide⟩

/-- Witness for C3 at a concrete offline image request with an empty store. -/
theorem c3_image_placeholder_witness :
    (handleOptimizedImageRequest (fun _ _ => none)
        ⟨⟨"https:", "example.com", "/pic.jpg"⟩, "GET", "image"⟩ []).1
      = placeholderSvgResponse ∧
    placeholderSvgResponse.status = 200 ∧
    headerGet placeholderSvgResponse.headers "content-type" = some "image/svg+xml" ∧
    headerGet placeholderSvgResponse.headers "cache-control" = some "no-cache" :=
  c3_image_placeholder _ _ _ (Or.inl rfl) rfl rfl

/-- Claim C4, counterexample: a GET request with the non-http(s) scheme
`ftp:` is not passed through — the listener dispatches it to the asset
strategy, which here serves it from the dynamic partition, a cache read. -/
theorem c4_counterexample :
    (⟨⟨"ftp:", "example.com", "/file.txt"⟩, "GET", ""⟩ : Request).url.protocol ≠ "http:" ∧
    (⟨⟨"ftp:", "example.com", "/file.txt"⟩, "GET", ""⟩ : Request).url.protocol ≠ "https:" ∧
    (handleFetch (fun _ _ => none) ⟨⟨"ftp:", "example.com", "/file.txt"⟩, "GET", ""⟩
        [(DYNAMIC_CACHE, [(⟨"ftp:", "example.com", "/file.txt"⟩, ⟨200, "", "hi", []⟩)])]).1
      = .respond ⟨200, "", "hi", []⟩ := by
  decide

/-- Claim C4, amended: the scheme-based exclusion covers exactly the
`chrome-extension:` scheme — any request whose URL protocol is
`chrome-extension:` passes through unintercepted, with no strategy handler
run and the store unchanged. -/
theorem c4_amended_chrome_extension_passthrough (net : Network) (req : Request)
    (store : CacheStore) (hp : req.url.protocol = "chrome-extension:") :
    handleFetch net req store = (.passthrough, store) := by
  unfold handleFetch
  by_cases hm : req.method = "GET"
  · simp [hm, hp]
  · simp [hm]

/-- Witness for the amended C4 at a concrete extension-internal request. -/
theorem c4_amended_witness :
    handleFetch (fun _ _ => none)
        ⟨⟨"chrome-extension:", "abcdefg", "/popup.html"⟩, "GET", ""⟩
        [(DYNAMIC_CACHE, [])]
      = (.passthrough, [(DYNAMIC_CACHE, [])]) :=
  c4_amended_chrome_extension_passthrough _ _ _ rfl

/-- Claim C5: a request with method other than GET is never dispatched to a
strategy handler: the listener passes it through, the store is returned
unchanged, and so every partition's contents are unchanged. -/
theorem c5_non_get_passthrough (net : Network) (req : Request) (store : CacheStore)
    (hm : req.method ≠ "GET") :
    handleFetch net req store = (.passthrough, store) ∧
    ∀ name, getCache name (handleFetch net req store).2 = getCache name store := by
  have h : handleFetch net req store = (.passthrough, store) := by
    unfold handleFetch
    simp [hm]
  exact ⟨h, fun name => by rw [h]⟩

/-- Witness for C5 at a concrete POST request. -/
theorem c5_non_get_passthrough_witness :
    handleFetch (fun _ _ => none)
        ⟨⟨"https:", "example.com", "/api/recipes"⟩, "POST", ""⟩
        [(DYNAMIC_CACHE, [])]
      = (.passthrough, [(DYNAMIC_CACHE, [])]) ∧
    getCache DYNAMIC_CACHE
        (handleFetch (fun _ _ => none)
          ⟨⟨"https:", "example.com", "/api/recipes"⟩, "POST", ""⟩
          [(DYNAMIC_CACHE, [])]).2
      = getCache DYNAMIC_CACHE [(DYNAMIC_CACHE, [])] :=
  ⟨(c5_non_get_passthrough _ _ _ (by decide)).1,
   (c5_non_get_passthrough _ _ _ (by decide)).2 DYNAMIC_CACHE⟩

/-- Claim C6: after the activate handler runs, every surviving partition is
one of the three current versioned partitions, every current partition of
the starting store survives, and the open page contexts are claimed. -/
theorem c6_activate_cleanup (store : CacheStore) :
    (activate store).2 = true ∧
    (∀ p ∈ (activate store).1,
       p.1 = STATIC_CACHE ∨ p.1 = DYNAMIC_CACHE ∨ p.1 = IMAGE_CACHE_NAME) ∧
    ∀ p ∈ store,
      (p.1 = STATIC_CACHE ∨ p.1 = DYNAMIC_CACHE ∨ p.1 = IMAGE_CACHE_NAME) →
      p ∈ (activate store).1 := by
  refine ⟨rfl, ?_, ?_⟩
  · intro p hp
    have := (List.mem_filter.mp hp).2
    simpa using this
  · intro p hp hgood
    exact List.mem_filter.mpr ⟨hp, by simpa using hgood⟩

/-- Witness for C6: a stale partition is deleted, the current static
partition survives, and the claim flag is set. -/
theorem c6_activate_cleanup_witness :
    (activate [("acwhisk-static-v1.0.2", []), (STATIC_CACHE, [])]).2 = true ∧
    (STATIC_CACHE, ([] : Cache))
      ∈ (activate [("acwhisk-static-v1.0.2", []), (STATIC_CACHE, [])]).1 :=
  ⟨(c6_activate_cleanup _).1,
   (c6_activate_cleanup _).2.2 _ (by decide) (by decide)⟩

/-- Claim C7: after the background-sync sweep, no entry left in the image
partition carries a (non-empty) `date` header parsing to a time older than
7 days before the sweep, and a `SYNC_COMPLETE` message stamped with the
sweep time is posted to every open page context. -/
theorem c7_background_sync (parseDate : String → Int) (now : Int)
    (clients : List Nat) (store : CacheStore) (e : Url × Response) (d : String)
    (he : e ∈ getCache IMAGE_CACHE_NAME (doBackgroundSync parseDate now clients store).1)
    (hd : headerGet e.2.headers "date" = some d) (hne : d ≠ "") :
    ¬ parseDate d < now - oneWeekMs ∧
    (doBackgroundSync parseDate now clients store).2
      = clients.map (fun c => (c, ⟨"SYNC_COMPLETE", now⟩)) := by
  refine ⟨?_, rfl⟩
  rw [getCache_doBackgroundSync] at he
  unfold sweepImageCache at he
  have hkeep := (List.mem_filter.mp he).2
  intro hlt
  have hdel : sweepDeletes parseDate (now - oneWeekMs) e.2 = true := by
    unfold sweepDeletes
    rw [hd]
    simp [hne, hlt]
  rw [hdel] at hkeep
  simp at hkeep

/-- Witness for C7: a sweep with one stale and one fresh entry deletes the
stale one; the fresh survivor is provably within the retention window and
both clients receive the timestamped `SYNC_COMPLETE` message. -/
theorem c7_background_sync_witness :
    ¬ (fun s => if s == "old" then (0 : Int) else 10) "fresh"
        < (oneWeekMs + 5) - oneWeekMs ∧
    (doBackgroundSync (fun s => if s == "old" then (0 : Int) else 10) (oneWeekMs + 5) [0, 1]
        [(IMAGE_CACHE_NAME,
          [(⟨"https:", "img.example.com", "/old.png"⟩, ⟨200, "", "o", [("Date", "old")]⟩),
           (⟨"https:", "img.example.com", "/fresh.png"⟩, ⟨200, "", "f", [("Date", "fresh")]⟩)])]).2
      = [0, 1].map (fun c => (c, ⟨"SYNC_COMPLETE", oneWeekMs + 5⟩)) :=
  c7_background_sync (fun s => if s == "old" then (0 : Int) else 10) (oneWeekMs + 5) [0, 1]
    [(IMAGE_CACHE_NAME,
      [(⟨"https:", "img.example.com", "/old.png"⟩, ⟨200, "", "o", [("Date", "old")]⟩),
       (⟨"https:", "img.example.com", "/fresh.png"⟩, ⟨200, "", "f", [("Date", "fresh")]⟩)])]
    (⟨"https:", "img.example.com", "/fresh.png"⟩, ⟨200, "", "f", [("Date", "fresh")]⟩)
    "fresh" (by decide) (by decide) (by decide)

theorem cacheAddAll_success (net : Network) :
    ∀ (urls : List Url) (c : Cache),
      (∀ u ∈ urls, ∃ r, net (getRequestOf u) [] = some r ∧ 200 ≤ r.status ∧ r.status < 300) →
      (∀ u ∈ urls, u ∉ c.map (·.1)) →
      urls.Nodup →
      ∃ c', cacheAddAll net urls c = some c' ∧ c'.map (·.1) = c.map (·.1) ++ urls := by
  intro urls
  induction urls with
  | nil =>
    intro c _ _ _
    exact ⟨c, rfl, by simp⟩
  | cons u rest ih =>
    intro c hok hnotin hnd
    obtain ⟨r, hr, h1, h2⟩ := hok u (List.mem_cons_self u rest)
    have hstep : cacheAddAll net (u :: rest) c = cacheAddAll net rest (cachePut c u r) := by
      unfold cacheAddAll
      simp [hr, h1, h2]
    have hnd' := List.nodup_cons.mp hnd
    have hkeys : (cachePut c u r).map (·.1) = c.map (·.1) ++ [u] :=
      keys_cachePut_of_not_mem c u r (hnotin u (List.mem_cons_self u rest))
    have hnotin' : ∀ v ∈ rest, v ∉ (cachePut c u r).map (·.1) := by
      intro v hv hvmem
      rcases keys_cachePut_mem c u v r hvmem with h' | h'
      · exact hnotin v (List.mem_cons_of_mem u hv) h'
      · exact hnd'.1 (h' ▸ hv)
    obtain ⟨c', hc', hckeys⟩ := ih (cachePut c u r)
      (fun v hv => hok v (List.mem_cons_of_mem u hv)) hnotin' hnd'.2
    refine ⟨c', by rw [hstep]; exact hc', ?_⟩
    rw [hckeys, hkeys, List.append_assoc]
    rfl

/-- Claim C8: when every manifest fetch succeeds and no static partition
pre-exists, the install handler leaves the static partition holding exactly
the manifest entries (in order), creates the image partition, and calls
`skipWaiting` to force immediate activation. -/
theorem c8_install_manifest (net : Network) (store : CacheStore)
    (hfresh : ∀ e ∈ store, e.1 ≠ STATIC_CACHE)
    (hok : ∀ u ∈ staticAssetUrls,
      ∃ r, net (getRequestOf u) [] = some r ∧ 200 ≤ r.status ∧ r.status < 300) :
    (install net store).2 = true ∧
    (getCache STATIC_CACHE (install net store).1).map (·.1) = staticAssetUrls ∧
    IMAGE_CACHE_NAME ∈ cachesKeys (install net store).1 := by
  have hstatic0 :
      getCache STATIC_CACHE (openCache IMAGE_CACHE_NAME (openCache STATIC_CACHE store))
        = [] := by
    rw [getCache_openCache_ne IMAGE_CACHE_NAME STATIC_CACHE _ (by decide),
        getCache_openCache_self, getCache_absent STATIC_CACHE store hfresh]
  obtain ⟨c', hc', hckeys⟩ := cacheAddAll_success net staticAssetUrls []
    hok (by intro u hu; simp) (by decide)
  have hinst : install net store
      = (setCache STATIC_CACHE c'
           (openCache IMAGE_CACHE_NAME (openCache STATIC_CACHE store)), true) := by
    simp only [install, hstatic0, hc']
  rw [hinst]
  refine ⟨rfl, ?_, ?_⟩
  · rw [getCache_setCache_found _ _ _
      (find?_openCache_isSome_mono IMAGE_CACHE_NAME STATIC_CACHE _
        (find?_openCache_isSome STATIC_CACHE store))]
    simpa using hckeys
  · rw [cachesKeys_setCache]
    unfold openCache
    split
    · exact mem_keys_openCache IMAGE_CACHE_NAME _
    · have := mem_keys_openCache IMAGE_CACHE_NAME (openCache STATIC_CACHE store)
      unfold openCache at this
      split at this <;> simp_all [cachesKeys]

/-- Witness for C8: install against an always-succeeding network from an
empty store. -/
theorem c8_install_manifest_witness :
    (install (fun _ _ => some ⟨200, "OK", "body", []⟩) []).2 = true ∧
    (getCache STATIC_CACHE
        (install (fun _ _ => some ⟨200, "OK", "body", []⟩) []).1).map (·.1)
      = staticAssetUrls ∧
    IMAGE_CACHE_NAME ∈ cachesKeys (install (fun _ _ => some ⟨200, "OK", "body", []⟩) []).1 :=
  c8_install_manifest _ _ (by intro e he; cases he)
    (by intro u _; exact ⟨⟨200, "OK", "body", []⟩, rfl, by decide, by decide⟩)

/-- Claim C9: a `CLEAR_CACHE` message deletes the dynamic and image
partitions entirely, leaves the static partition untouched, and replies
exactly once with `success := true`; a `GET_CACHE_SIZE` message processed
afterwards reports 0 dynamic entries, 0 image entries and total 0. -/
theorem c9_clear_cache (net net2 : Network) (store : CacheStore) :
    (handleMessage net .clearCache store).2.1 = [.success true] ∧
    DYNAMIC_CACHE ∉ cachesKeys (handleMessage net .clearCache store).1 ∧
    IMAGE_CACHE_NAME ∉ cachesKeys (handleMessage net .clearCache store).1 ∧
    getCache STATIC_CACHE (handleMessage net .clearCache store).1
      = getCache STATIC_CACHE store ∧
    (handleMessage net2 .getCacheSize (handleMessage net .clearCache store).1).2.1
      = [.cacheSize 0 0 0] := by
  have hstore : (handleMessage net .clearCache store).1
      = cachesDelete IMAGE_CACHE_NAME (cachesDelete DYNAMIC_CACHE store) := rfl
  refine ⟨rfl, ?_, ?_, ?_, ?_⟩
  · rw [hstore]
    intro h
    exact not_mem_keys_cachesDelete DYNAMIC_CACHE _
      (mem_keys_cachesDelete IMAGE_CACHE_NAME DYNAMIC_CACHE _ h).1
  · rw [hstore]
    intro h
    exact (mem_keys_cachesDelete IMAGE_CACHE_NAME IMAGE_CACHE_NAME _ h).2 rfl
  · rw [hstore,
      getCache_cachesDelete_ne IMAGE_CACHE_NAME STATIC_CACHE _ (by decide),
      getCache_cachesDelete_ne DYNAMIC_CACHE STATIC_CACHE _ (by decide)]
  · rw [hstore]
    have hdyn : getCache DYNAMIC_CACHE
        (openCache IMAGE_CACHE_NAME (openCache DYNAMIC_CACHE
          (cachesDelete IMAGE_CACHE_NAME (cachesDelete DYNAMIC_CACHE store)))) = [] := by
      rw [getCache_openCache_ne IMAGE_CACHE_NAME DYNAMIC_CACHE _ (by decide),
          getCache_openCache_self]
      apply getCache_absent
      intro e he
      exact (mem_cachesDelete DYNAMIC_CACHE store e
        (mem_cachesDelete IMAGE_CACHE_NAME _ e he).1).2
    have himg : getCache IMAGE_CACHE_NAME
        (openCache IMAGE_CACHE_NAME (openCache DYNAMIC_CACHE
          (cachesDelete IMAGE_CACHE_NAME (cachesDelete DYNAMIC_CACHE store)))) = [] := by
      rw [getCache_openCache_self]
      apply getCache_absent
      intro e he
      rcases mem_openCache DYNAMIC_CACHE _ e he with h' | h'
      · exact (mem_cachesDelete IMAGE_CACHE_NAME _ e h').2
      · rw [h']
        decide
    simp only [handleMessage, hdyn, himg, List.length_nil]

/-- Claim C10: on an image-partition miss with a 200 network response, the
re-wrapped response the image handler returns and stores carries exactly
the three literal headers (the object spread of the original `Headers`
contributes nothing), in particular no `date` header; consequently the
stored entry survives every maintenance sweep. -/
theorem c10_image_rewrap_headers (net : Network) (req : Request) (store : CacheStore)
    (resp : Response)
    (hnet : net req imageFetchHeaders = some resp)
    (h200 : resp.status = 200)
    (hmiss : cacheMatch (getCache IMAGE_CACHE_NAME store) req.url = none) :
    (handleOptimizedImageRequest net req store).1.headers
      = [("Cache-Control", "public, max-age=604800"),
         ("Service-Worker-Cached", "true"),
         ("X-Optimized", "true")] ∧
    headerGet (handleOptimizedImageRequest net req store).1.headers "date" = none ∧
    cacheMatch (getCache IMAGE_CACHE_NAME (handleOptimizedImageRequest net req store).2) req.url
      = some (handleOptimizedImageRequest net req store).1 ∧
    ∀ parseDate now clients,
      cacheMatch (getCache IMAGE_CACHE_NAME
          (doBackgroundSync parseDate now clients
            (handleOptimizedImageRequest net req store).2).1) req.url
        = some (handleOptimizedImageRequest net req store).1 := by
  have hmiss' :
      cacheMatch (getCache IMAGE_CACHE_NAME (openCache IMAGE_CACHE_NAME store)) req.url
        = none := by
    rw [getCache_openCache_self]
    exact hmiss
  have hrun : handleOptimizedImageRequest net req store
      = (⟨resp.status, resp.statusText, resp.body, mkOptimizedHeaders resp.headers⟩,
         storePut IMAGE_CACHE_NAME req.url
           ⟨resp.status, resp.statusText, resp.body, mkOptimizedHeaders resp.headers⟩
           (openCache IMAGE_CACHE_NAME store)) := by
    simp only [handleOptimizedImageRequest, hmiss', hnet, h200, if_true]
  have hdate : headerGet (mkOptimizedHeaders resp.headers) "date" = none := rfl
  have hstored :
      cacheMatch (getCache IMAGE_CACHE_NAME (handleOptimizedImageRequest net req store).2)
          req.url
        = some (handleOptimizedImageRequest net req store).1 := by
    rw [hrun, getCache_storePut_self]
    exact cacheMatch_cachePut_self _ _ _
  refine ⟨by rw [hrun]; rfl, by rw [hrun]; exact hdate, hstored, ?_⟩
  intro parseDate now clients
  rw [getCache_doBackgroundSync]
  unfold sweepImageCache
  rw [hrun] at hstored ⊢
  apply cacheMatch_filter_keep _ _ _ _ hstored
  have hdel : sweepDeletes parseDate (now - oneWeekMs)
      (⟨resp.status, resp.statusText, resp.body, mkOptimizedHeaders resp.headers⟩ : Response)
      = false := by
    unfold sweepDeletes
    rw [hdate]
  rw [hdel]
  rfl

/-- Witness for C10: a network image response carrying `Content-Type` and
`Date` headers is re-wrapped with exactly the three literal headers, the
original ones dropped; the stored entry survives a concrete sweep. -/
theorem c10_image_rewrap_headers_witness :
    (handleOptimizedImageRequest imgNet imgReq []).1.headers
      = [("Cache-Control", "public, max-age=604800"),
         ("Service-Worker-Cached", "true"),
         ("X-Optimized", "true")] ∧
    headerGet (handleOptimizedImageRequest imgNet imgReq []).1.headers "date" = none ∧
    cacheMatch (getCache IMAGE_CACHE_NAME
        (doBackgroundSync (fun _ => 0) oneWeekMs [0]
          (handleOptimizedImageRequest imgNet imgReq []).2).1) imgReq.url
      = some (handleOptimizedImageRequest imgNet imgReq []).1 :=
  ⟨(c10_image_rewrap_headers imgNet imgReq [] imgNetResp rfl rfl rfl).1,
   (c10_image_rewrap_headers imgNet imgReq [] imgNetResp rfl rfl rfl).2.1,
   (c10_image_rewrap_headers imgNet imgReq [] imgNetResp rfl rfl rfl).2.2.2
     (fun _ => 0) oneWeekMs [0]⟩

end ACWhisk
